import Mathlib

/-!
Shallow embedding of the SmartPy `Lottery` contract (`src/lottery.py`).

Storage fields mirror `Lottery.__init__`: `admin`, `players` (a map from
`nat` ticket index to owner address, embedded as an association list in
insertion order), `ticket_cost` (mutez as `Nat`), `tickets_available`,
`max_tickets`.

Entry points are functions from their parameters, the ambient context
(`sp.sender`, `sp.amount`, `sp.now`, `sp.balance`) and the storage to
`Except Err (new storage, value transfers issued)`.  A failed `sp.verify`
aborts the transaction with no state change, which the `Except.error`
branch models structurally: an error carries no storage.
-/

/-- Transaction failure kinds, one per `sp.verify` message in the source,
plus the runtime failure of a map access on a missing key. -/
inductive Err where
  /-- "NO TICKETS AVAILABLE" -/
  | noTicketsAvailable
  /-- "INVALID AMOUNT" -/
  | insufficientPayment
  /-- "REQUESTED AMOUNT OF TICKETS EXCEED THE REMAINING AMOUNT OF TICKETS" -/
  | requestExceedsSupply
  /-- "THIS ENTRY POINT CAN ONLY BE CALLED BY THE CONTRACT ADMIN" -/
  | authorizationError
  /-- "CANNOT UPDATE ... WHILE A GAME IS ONGOING" -/
  | stateConflictError
  /-- "MAXIMUM AMOUNT OF TICKETS CANNOT BE ZERO" -/
  | invalidParameterError
  /-- "GAME IS YET TO END" -/
  | roundNotCompleteError
  /-- `self.data.players[winner_id]` on an absent key -/
  | missingLedgerKey
  deriving DecidableEq, Repr

/-- The contract storage, as initialized in `Lottery.__init__`. -/
structure Storage where
  admin : String
  players : List (Nat × String)
  ticket_cost : Nat
  tickets_available : Nat
  max_tickets : Nat
  deriving DecidableEq, Repr

/-- `self.init(...)`: 1 tez = 1000000 mutez, 5 tickets. -/
def initStorage : Storage :=
  { admin := "tz1fcNTRug7RXfixJWttCcReTVXSLt2UozSU"
    players := []
    ticket_cost := 1000000
    tickets_available := 5
    max_tickets := 5 }

/-- `sp.map` update `m[k] = v`: replace the binding if `k` is present,
otherwise add a new one. -/
def mapSet (m : List (Nat × String)) (k : Nat) (v : String) : List (Nat × String) :=
  if (m.lookup k).isSome then
    m.map (fun p => if p.1 = k then (k, v) else p)
  else
    m ++ [(k, v)]

/-- The loop body of `buy_tickets`, iterated `n` times:
`self.data.players[sp.len(self.data.players)] = sp.sender`. -/
def buyLoop (sender : String) : Nat → List (Nat × String) → List (Nat × String)
  | 0, m => m
  | k + 1, m => buyLoop sender k (mapSet m m.length sender)

/-- `buy_tickets(n)` with ambient `sp.sender` and `sp.amount` (mutez).
Returns the new storage and the refund transfer issued by `sp.send`, if any. -/
def buy_tickets (n : Nat) (sender : String) (amount : Nat) (st : Storage) :
    Except Err (Storage × Option (String × Nat)) :=
  let total_cost := n * st.ticket_cost
  if st.tickets_available > 0 then
    if amount ≥ total_cost then
      if st.tickets_available ≥ n then
        let st' : Storage :=
          { st with players := buyLoop sender n st.players
                    tickets_available := st.tickets_available - n }
        let extra := amount - total_cost
        Except.ok (st', if extra > 0 then some (sender, extra) else none)
      else Except.error Err.requestExceedsSupply
    else Except.error Err.insufficientPayment
  else Except.error Err.noTicketsAvailable

/-- `update_ticket_cost(new_cost)` with ambient `sp.sender`. -/
def update_ticket_cost (new_cost : Nat) (sender : String) (st : Storage) :
    Except Err Storage :=
  if sender = st.admin then
    if st.tickets_available = st.max_tickets then
      Except.ok { st with ticket_cost := new_cost }
    else Except.error Err.stateConflictError
  else Except.error Err.authorizationError

/-- `update_max_tickets(new_max)` with ambient `sp.sender`. -/
def update_max_tickets (new_max : Nat) (sender : String) (st : Storage) :
    Except Err Storage :=
  if sender = st.admin then
    if st.tickets_available = st.max_tickets then
      if new_max ≠ 0 then
        Except.ok { st with max_tickets := new_max, tickets_available := new_max }
      else Except.error Err.invalidParameterError
    else Except.error Err.stateConflictError
  else Except.error Err.authorizationError

/-- `end_game()` with ambient `sp.now` (seconds since the zero timestamp,
so `sp.as_nat(sp.now - sp.timestamp(0))` is `now` itself) and `sp.balance`.
Returns the new storage and the payout transfer `(winner, balance)`. -/
def end_game (now : Nat) (balance : Nat) (st : Storage) :
    Except Err (Storage × (String × Nat)) :=
  if st.tickets_available = 0 then
    let winner_id := now % st.max_tickets
    match st.players.lookup winner_id with
    | some winner_address =>
        Except.ok ({ st with players := [], tickets_available := st.max_tickets },
                   (winner_address, balance))
    | none => Except.error Err.missingLedgerKey
  else Except.error Err.roundNotCompleteError

/-- States reachable from the initial storage by successful operations. -/
inductive Reachable : Storage → Prop
  | init : Reachable initStorage
  | buy {st st' : Storage} {n : Nat} {s : String} {a : Nat} {r : Option (String × Nat)} :
      Reachable st → buy_tickets n s a st = Except.ok (st', r) → Reachable st'
  | cost {st st' : Storage} {c : Nat} {s : String} :
      Reachable st → update_ticket_cost c s st = Except.ok st' → Reachable st'
  | maxt {st st' : Storage} {m : Nat} {s : String} :
      Reachable st → update_max_tickets m s st = Except.ok st' → Reachable st'
  | endg {st st' : Storage} {t b : Nat} {p : String × Nat} :
      Reachable st → end_game t b st = Except.ok (st', p) → Reachable st'

/-- The ledger keys are exactly `0, 1, ..., players.length - 1` in order,
the ledger size and `tickets_available` sum to `max_tickets`, and
`max_tickets` is positive. -/
def LotteryInv (st : Storage) : Prop :=
  st.players.map Prod.fst = List.range' 0 st.players.length ∧
  st.players.length + st.tickets_available = st.max_tickets ∧
  0 < st.max_tickets

example : LotteryInv initStorage := by
  refine ⟨rfl, rfl, by decide⟩

example :
    buy_tickets 2 "bob" 3000000 initStorage =
      Except.ok ({ initStorage with players := [(0, "bob"), (1, "bob")],
                                    tickets_available := 3 },
                 some ("bob", 1000000)) := by
  rfl

/-! ### Association-list lemmas -/

theorem lookup_eq_none_of_forall_ne {m : List (Nat × String)} {k : Nat}
    (h : ∀ p ∈ m, p.1 ≠ k) : m.lookup k = none := by
  rw [List.lookup_eq_none_iff]
  intro p hp
  simpa using Ne.symm (h p hp)

theorem lookup_isSome_of_mem_keys {m : List (Nat × String)} {k : Nat}
    (h : k ∈ m.map Prod.fst) : (m.lookup k).isSome := by
  rw [List.lookup_isSome_iff]
  obtain ⟨p, hp, hk⟩ := List.mem_map.mp h
  exact ⟨p, hp, by simp [hk]⟩

theorem mapSet_fresh {m : List (Nat × String)} {k : Nat} {v : String}
    (h : m.lookup k = none) : mapSet m k v = m ++ [(k, v)] := by
  simp [mapSet, h]

/-- Keys of the ledger are exactly `0, ..., length - 1` in order. -/
def Contig (m : List (Nat × String)) : Prop :=
  m.map Prod.fst = List.range' 0 m.length

theorem contig_lookup_len {m : List (Nat × String)} (h : Contig m) :
    m.lookup m.length = none := by
  refine lookup_eq_none_of_forall_ne fun p hp => ?_
  have : p.1 ∈ m.map Prod.fst := List.mem_map_of_mem Prod.fst hp
  rw [h] at this
  have := (List.mem_range'_1.mp this).2
  omega

theorem contig_lookup_isSome {m : List (Nat × String)} {k : Nat}
    (h : Contig m) (hk : k < m.length) : (m.lookup k).isSome := by
  apply lookup_isSome_of_mem_keys
  rw [h]
  exact List.mem_range'_1.mpr ⟨Nat.zero_le k, by omega⟩

theorem buyLoop_eq (s : String) :
    ∀ (n : Nat) (m : List (Nat × String)), Contig m →
      buyLoop s n m = m ++ (List.range' m.length n).map (fun i => (i, s)) := by
  intro n
  induction n with
  | zero => intro m _; simp [buyLoop]
  | succ k ih =>
      intro m hm
      have hfresh : mapSet m m.length s = m ++ [(m.length, s)] :=
        mapSet_fresh (contig_lookup_len hm)
      have hlen : (m ++ [(m.length, s)]).length = m.length + 1 := by
        simp
      have hcontig : Contig (m ++ [(m.length, s)]) := by
        unfold Contig
        rw [hlen, List.map_append, hm, List.range'_1_concat]
        simp
      calc buyLoop s (k + 1) m
          = buyLoop s k (m ++ [(m.length, s)]) := by rw [buyLoop, hfresh]
        _ = (m ++ [(m.length, s)]) ++
              (List.range' (m.length + 1) k).map (fun i => (i, s)) := by
            rw [ih _ hcontig, hlen]
        _ = m ++ (List.range' m.length (k + 1)).map (fun i => (i, s)) := by
            rw [List.range'_succ]
            simp

theorem buyLoop_length (s : String) {n : Nat} {m : List (Nat × String)}
    (h : Contig m) : (buyLoop s n m).length = m.length + n := by
  rw [buyLoop_eq s n m h]
  simp

theorem buyLoop_contig (s : String) {n : Nat} {m : List (Nat × String)}
    (h : Contig m) : Contig (buyLoop s n m) := by
  unfold Contig
  rw [buyLoop_eq s n m h]
  have hlen : (m ++ (List.range' m.length n).map (fun i => (i, s))).length =
      m.length + n := by simp
  rw [hlen, List.map_append, h, List.map_map]
  have hid : (Prod.fst ∘ fun i => ((i, s) : Nat × String)) = id := rfl
  rw [hid, List.map_id]
  have h3 := List.range'_append_1 0 m.length n
  rwa [Nat.zero_add, Nat.add_comm n m.length] at h3

/-! ### Inversion lemmas: what a successful call implies -/

theorem buy_tickets_ok {n : Nat} {s : String} {a : Nat} {st st' : Storage}
    {r : Option (String × Nat)}
    (h : buy_tickets n s a st = Except.ok (st', r)) :
    0 < st.tickets_available ∧ n * st.ticket_cost ≤ a ∧ n ≤ st.tickets_available ∧
    st' = { st with players := buyLoop s n st.players
                    tickets_available := st.tickets_available - n } ∧
    r = if a - n * st.ticket_cost > 0 then some (s, a - n * st.ticket_cost)
        else none := by
  simp only [buy_tickets] at h
  split_ifs at h with h1 h2 h3 h4
  · simp only [Except.ok.injEq, Prod.mk.injEq] at h
    refine ⟨h1, h2, h3, h.1.symm, ?_⟩
    rw [if_pos h4]
    exact h.2.symm
  · simp only [Except.ok.injEq, Prod.mk.injEq] at h
    refine ⟨h1, h2, h3, h.1.symm, ?_⟩
    rw [if_neg h4]
    exact h.2.symm

theorem update_ticket_cost_ok {c : Nat} {s : String} {st st' : Storage}
    (h : update_ticket_cost c s st = Except.ok st') :
    s = st.admin ∧ st.tickets_available = st.max_tickets ∧
    st' = { st with ticket_cost := c } := by
  unfold update_ticket_cost at h
  split_ifs at h with h1 h2
  · exact ⟨h1, h2, (Except.ok.inj h).symm⟩

theorem update_max_tickets_ok {m : Nat} {s : String} {st st' : Storage}
    (h : update_max_tickets m s st = Except.ok st') :
    s = st.admin ∧ st.tickets_available = st.max_tickets ∧ m ≠ 0 ∧
    st' = { st with max_tickets := m, tickets_available := m } := by
  unfold update_max_tickets at h
  split_ifs at h with h1 h2 h3
  · exact ⟨h1, h2, h3, (Except.ok.inj h).symm⟩

theorem end_game_ok {t b : Nat} {st st' : Storage} {p : String × Nat}
    (h : end_game t b st = Except.ok (st', p)) :
    st.tickets_available = 0 ∧
    st.players.lookup (t % st.max_tickets) = some p.1 ∧ p.2 = b ∧
    st' = { st with players := [], tickets_available := st.max_tickets } := by
  simp only [end_game] at h
  split_ifs at h with h1
  · cases hw : st.players.lookup (t % st.max_tickets) with
    | none => rw [hw] at h; cases h
    | some w =>
        rw [hw] at h
        simp only [Except.ok.injEq, Prod.mk.injEq] at h
        obtain ⟨hst, hp⟩ := h
        refine ⟨h1, ?_, ?_, hst.symm⟩
        · rw [← hp]
        · rw [← hp]

/-! ### The reachable-state invariant -/

theorem reachable_inv {st : Storage} (h : Reachable st) : LotteryInv st := by
  induction h with
  | init => exact ⟨rfl, rfl, by decide⟩
  | buy hr hok ih =>
      obtain ⟨h1, h2, h3, hst, -⟩ := buy_tickets_ok hok
      obtain ⟨hc, hsum, hmax⟩ := ih
      have hc' : Contig _ := hc
      subst hst
      refine ⟨buyLoop_contig _ hc', ?_, hmax⟩
      dsimp only
      rw [buyLoop_length _ hc']
      omega
  | cost hr hok ih =>
      obtain ⟨-, -, hst⟩ := update_ticket_cost_ok hok
      subst hst
      exact ih
  | maxt hr hok ih =>
      obtain ⟨-, havail, hm, hst⟩ := update_max_tickets_ok hok
      obtain ⟨hc, hsum, hmax⟩ := ih
      subst hst
      exact ⟨hc, by dsimp only; omega, Nat.pos_of_ne_zero hm⟩
  | endg hr hok ih =>
      obtain ⟨h0, hw, hb, hst⟩ := end_game_ok hok
      subst hst
      exact ⟨rfl, by simp, ih.2.2⟩

/-! ### Concrete states used to instantiate the theorems -/

/-- A sold-out state: five tickets bought from the initial state in one call. -/
def soldOutStorage : Storage :=
  { admin := "tz1fcNTRug7RXfixJWttCcReTVXSLt2UozSU"
    players := [(0, "bob"), (1, "bob"), (2, "bob"), (3, "bob"), (4, "bob")]
    ticket_cost := 1000000
    tickets_available := 0
    max_tickets := 5 }

theorem soldOutStorage_reachable : Reachable soldOutStorage :=
  Reachable.buy Reachable.init
    (rfl : buy_tickets 5 "bob" 5000000 initStorage =
      Except.ok (soldOutStorage, none))

/-! ### The claims -/

/-- C1: for every state reachable from the initial state by any sequence of
successful operations, the number of entries in the players ledger plus
`tickets_available` equals `max_tickets`. -/
theorem ledger_size_plus_available_eq_max (st : Storage) (h : Reachable st) :
    st.players.length + st.tickets_available = st.max_tickets :=
  (reachable_inv h).2.1

theorem ledger_size_plus_available_eq_max_witness :
    soldOutStorage.players.length + soldOutStorage.tickets_available =
      soldOutStorage.max_tickets :=
  ledger_size_plus_available_eq_max soldOutStorage soldOutStorage_reachable

/-- C2: a call to `end_game` with `tickets_available = 0` pays the entire
pooled balance to the owner recorded in the ledger at index
`(current_time - epoch_origin) % max_tickets` (the epoch origin being the
zero timestamp), and resets the round. -/
theorem end_game_winner_payout (st : Storage) (now balance : Nat) (w : String)
    (h0 : st.tickets_available = 0)
    (hw : st.players.lookup (now % st.max_tickets) = some w) :
    end_game now balance st =
      Except.ok ({ st with players := [], tickets_available := st.max_tickets },
                 (w, balance)) := by
  simp [end_game, h0, hw]

theorem end_game_winner_payout_witness :
    end_game 7 12000000 soldOutStorage =
      Except.ok ({ soldOutStorage with players := [],
                                       tickets_available := 5 },
                 ("bob", 12000000)) :=
  end_game_winner_payout soldOutStorage 7 12000000 "bob" rfl rfl

/-- C3: `end_game` fails with `roundNotCompleteError` (and, the error carrying
no storage, with no state change) whenever `tickets_available > 0`; on success
it empties the players ledger and resets `tickets_available` to
`max_tickets`. -/
theorem end_game_error_and_reset (st : Storage) (now balance : Nat) :
    (st.tickets_available ≠ 0 →
      end_game now balance st = Except.error Err.roundNotCompleteError) ∧
    (∀ st' p, end_game now balance st = Except.ok (st', p) →
      st'.players = [] ∧ st'.tickets_available = st.max_tickets ∧
      st'.max_tickets = st.max_tickets) := by
  constructor
  · intro h0
    simp [end_game, h0]
  · intro st' p h
    obtain ⟨-, -, -, hst⟩ := end_game_ok h
    subst hst
    exact ⟨rfl, rfl, rfl⟩

theorem end_game_error_and_reset_witness :
    end_game 10 0 initStorage = Except.error Err.roundNotCompleteError ∧
    (([] : List (Nat × String)) = [] ∧ (5 : Nat) = 5 ∧ (5 : Nat) = 5) :=
  ⟨(end_game_error_and_reset initStorage 10 0).1 (by decide),
   (end_game_error_and_reset soldOutStorage 7 0).2
     { soldOutStorage with players := [], tickets_available := 5 }
     ("bob", 0) rfl⟩

/-- C4: `buy_tickets` checks `tickets_available > 0`, then
`paid_amount ≥ n * ticket_cost`, then `n ≤ tickets_available`, in that order,
each with its distinct error, and succeeds exactly when all three hold. -/
theorem buy_tickets_check_order (st : Storage) (n : Nat) (sender : String)
    (amount : Nat) :
    (st.tickets_available = 0 →
      buy_tickets n sender amount st = Except.error Err.noTicketsAvailable) ∧
    (0 < st.tickets_available → amount < n * st.ticket_cost →
      buy_tickets n sender amount st = Except.error Err.insufficientPayment) ∧
    (0 < st.tickets_available → n * st.ticket_cost ≤ amount →
      st.tickets_available < n →
      buy_tickets n sender amount st = Except.error Err.requestExceedsSupply) ∧
    ((∃ out, buy_tickets n sender amount st = Except.ok out) ↔
      (0 < st.tickets_available ∧ n * st.ticket_cost ≤ amount ∧
       n ≤ st.tickets_available)) := by
  refine ⟨?_, ?_, ?_, ?_⟩
  · intro h0
    simp [buy_tickets, h0]
  · intro h1 h2
    have h2' : ¬(amount ≥ n * st.ticket_cost) := fun hc => absurd h2 (by omega)
    simp only [buy_tickets]
    rw [if_pos h1, if_neg h2']
  · intro h1 h2 h3
    have h3' : ¬(st.tickets_available ≥ n) := fun hc => absurd h3 (by omega)
    simp only [buy_tickets]
    rw [if_pos h1, if_pos h2, if_neg h3']
  · constructor
    · rintro ⟨⟨st', r⟩, hout⟩
      obtain ⟨h1, h2, h3, -, -⟩ := buy_tickets_ok hout
      exact ⟨h1, h2, h3⟩
    · rintro ⟨h1, h2, h3⟩
      refine ⟨({ st with players := buyLoop sender n st.players
                         tickets_available := st.tickets_available - n },
               if amount - n * st.ticket_cost > 0
               then some (sender, amount - n * st.ticket_cost) else none), ?_⟩
      simp only [buy_tickets]
      rw [if_pos h1, if_pos h2, if_pos h3]

theorem buy_tickets_check_order_witness :
    buy_tickets 1 "mike" 1000000 soldOutStorage =
      Except.error Err.noTicketsAvailable ∧
    buy_tickets 2 "alice" 1000000 initStorage =
      Except.error Err.insufficientPayment ∧
    buy_tickets 6 "mike" 10000000 initStorage =
      Except.error Err.requestExceedsSupply :=
  ⟨(buy_tickets_check_order soldOutStorage 1 "mike" 1000000).1 rfl,
   (buy_tickets_check_order initStorage 2 "alice" 1000000).2.1
     (by decide) (by decide),
   (buy_tickets_check_order initStorage 6 "mike" 10000000).2.2.1
     (by decide) (by decide) (by decide)⟩

/-- C5: a successful `buy_tickets n caller paid` on a contiguous 0-based
ledger appends exactly `n` contiguous entries, indices
`players.length, ..., players.length + n - 1`, each owned by `caller`,
keeping the ledger contiguous; it decrements `tickets_available` by exactly
`n`, touches no other field, and refunds `paid - n * ticket_cost` to `caller`
exactly when `paid > n * ticket_cost`.  A failing call returns an error
carrying no storage, so the sale is all-or-nothing by construction. -/
theorem buy_tickets_effect (st : Storage) (n : Nat) (caller : String)
    (amount : Nat) (st' : Storage) (r : Option (String × Nat))
    (hc : st.players.map Prod.fst = List.range' 0 st.players.length)
    (h : buy_tickets n caller amount st = Except.ok (st', r)) :
    st'.players = st.players ++
      (List.range' st.players.length n).map (fun i => (i, caller)) ∧
    st'.players.map Prod.fst = List.range' 0 st'.players.length ∧
    n ≤ st.tickets_available ∧
    st'.tickets_available = st.tickets_available - n ∧
    st'.max_tickets = st.max_tickets ∧
    st'.ticket_cost = st.ticket_cost ∧
    st'.admin = st.admin ∧
    r = if n * st.ticket_cost < amount
        then some (caller, amount - n * st.ticket_cost) else none := by
  obtain ⟨h1, h2, h3, hst, hr⟩ := buy_tickets_ok h
  have hc' : Contig st.players := hc
  subst hst
  refine ⟨buyLoop_eq caller n st.players hc', buyLoop_contig caller hc',
          h3, rfl, rfl, rfl, rfl, ?_⟩
  rcases Nat.lt_or_ge (n * st.ticket_cost) amount with hca | hca
  · rw [hr, if_pos (by omega : amount - n * st.ticket_cost > 0), if_pos hca]
  · rw [hr, if_neg (by omega : ¬amount - n * st.ticket_cost > 0),
        if_neg (by omega : ¬n * st.ticket_cost < amount)]

theorem buy_tickets_effect_witness :
    ({ initStorage with players := [(0, "bob"), (1, "bob")],
                        tickets_available := 3 } : Storage).players =
      initStorage.players ++
        (List.range' initStorage.players.length 2).map (fun i => (i, "bob")) :=
  (buy_tickets_effect initStorage 2 "bob" 3000000
    { initStorage with players := [(0, "bob"), (1, "bob")],
                       tickets_available := 3 }
    (some ("bob", 1000000)) rfl rfl).1

/-- C6: `update_ticket_cost` and `update_max_tickets` fail with
`authorizationError` for every non-admin caller and with
`stateConflictError` whenever `tickets_available ≠ max_tickets`; neither
ever succeeds while a round is in progress. -/
theorem admin_ops_guards (st : Storage) (sender : String) (c m : Nat) :
    (sender ≠ st.admin →
      update_ticket_cost c sender st = Except.error Err.authorizationError ∧
      update_max_tickets m sender st = Except.error Err.authorizationError) ∧
    (sender = st.admin → st.tickets_available ≠ st.max_tickets →
      update_ticket_cost c sender st = Except.error Err.stateConflictError ∧
      update_max_tickets m sender st = Except.error Err.stateConflictError) ∧
    (∀ st', update_ticket_cost c sender st = Except.ok st' →
      st.tickets_available = st.max_tickets) ∧
    (∀ st', update_max_tickets m sender st = Except.ok st' →
      st.tickets_available = st.max_tickets) := by
  refine ⟨?_, ?_, ?_, ?_⟩
  · intro h
    exact ⟨by simp [update_ticket_cost, h], by simp [update_max_tickets, h]⟩
  · intro h1 h2
    exact ⟨by simp [update_ticket_cost, h1, h2],
           by simp [update_max_tickets, h1, h2]⟩
  · intro st' h
    exact (update_ticket_cost_ok h).2.1
  · intro st' h
    exact (update_max_tickets_ok h).2.1

theorem admin_ops_guards_witness :
    (update_ticket_cost 5000000 "alice" initStorage =
        Except.error Err.authorizationError ∧
      update_max_tickets 3 "alice" initStorage =
        Except.error Err.authorizationError) ∧
    (update_ticket_cost 3000000 "tz1fcNTRug7RXfixJWttCcReTVXSLt2UozSU"
        { initStorage with players := [(0, "bob")], tickets_available := 4 } =
        Except.error Err.stateConflictError ∧
      update_max_tickets 3 "tz1fcNTRug7RXfixJWttCcReTVXSLt2UozSU"
        { initStorage with players := [(0, "bob")], tickets_available := 4 } =
        Except.error Err.stateConflictError) :=
  ⟨(admin_ops_guards initStorage "alice" 5000000 3).1 (by decide),
   (admin_ops_guards
      { initStorage with players := [(0, "bob")], tickets_available := 4 }
      "tz1fcNTRug7RXfixJWttCcReTVXSLt2UozSU" 3000000 3).2.1 rfl (by decide)⟩

/-- C7: `update_max_tickets` rejects `new_max = 0` with
`invalidParameterError` (once the admin and no-round-in-progress checks
pass, and it never succeeds with zero); on success it sets both
`max_tickets` and `tickets_available` to `new_max`. -/
theorem update_max_tickets_zero_and_effect (st : Storage) (sender : String)
    (new_max : Nat) :
    (sender = st.admin → st.tickets_available = st.max_tickets →
      update_max_tickets 0 sender st = Except.error Err.invalidParameterError) ∧
    (∀ st', update_max_tickets new_max sender st = Except.ok st' →
      new_max ≠ 0 ∧ st'.max_tickets = new_max ∧
      st'.tickets_available = new_max) := by
  constructor
  · intro h1 h2
    simp [update_max_tickets, h1, h2]
  · intro st' h
    obtain ⟨-, -, hm, hst⟩ := update_max_tickets_ok h
    subst hst
    exact ⟨hm, rfl, rfl⟩

theorem update_max_tickets_zero_and_effect_witness :
    update_max_tickets 0 "tz1fcNTRug7RXfixJWttCcReTVXSLt2UozSU" initStorage =
      Except.error Err.invalidParameterError ∧
    ((10 : Nat) ≠ 0 ∧
      ({ initStorage with max_tickets := 10,
                          tickets_available := 10 } : Storage).max_tickets = 10 ∧
      ({ initStorage with max_tickets := 10,
                          tickets_available := 10 } : Storage).tickets_available
        = 10) :=
  ⟨(update_max_tickets_zero_and_effect initStorage
      "tz1fcNTRug7RXfixJWttCcReTVXSLt2UozSU" 0).1 rfl rfl,
   (update_max_tickets_zero_and_effect initStorage
      "tz1fcNTRug7RXfixJWttCcReTVXSLt2UozSU" 10).2
      { initStorage with max_tickets := 10, tickets_available := 10 } rfl⟩

/-- C8 counterexample: in the initial state (where `ticket_cost` is the
positive 1000000 mutez) the admin can successfully call
`update_ticket_cost` with `new_cost = 0`, leaving `ticket_cost = 0`, so a
successful update does not preserve `ticket_cost > 0`. -/
theorem update_ticket_cost_zero_succeeds :
    0 < initStorage.ticket_cost ∧
    update_ticket_cost 0 "tz1fcNTRug7RXfixJWttCcReTVXSLt2UozSU" initStorage =
      Except.ok { initStorage with ticket_cost := 0 } ∧
    ({ initStorage with ticket_cost := 0 } : Storage).ticket_cost = 0 :=
  ⟨by decide, rfl, rfl⟩

/-- C8 amended: `ticket_cost` is strictly positive in the initial state, and
a successful `update_ticket_cost new_cost` sets `ticket_cost` to exactly
`new_cost` — with no positivity check — so positivity is preserved exactly
when `new_cost > 0`. -/
theorem ticket_cost_positive_amended (st : Storage) (sender : String)
    (new_cost : Nat) (st' : Storage) :
    0 < initStorage.ticket_cost ∧
    (update_ticket_cost new_cost sender st = Except.ok st' →
      st'.ticket_cost = new_cost ∧ (0 < new_cost → 0 < st'.ticket_cost)) := by
  refine ⟨by decide, ?_⟩
  intro h
  obtain ⟨-, -, hst⟩ := update_ticket_cost_ok h
  subst hst
  exact ⟨rfl, fun hpos => hpos⟩

theorem ticket_cost_positive_amended_witness :
    0 < initStorage.ticket_cost ∧
    (({ initStorage with ticket_cost := 3000000 } : Storage).ticket_cost
        = 3000000 ∧
      (0 < 3000000 →
        0 < ({ initStorage with ticket_cost := 3000000 } : Storage).ticket_cost)) :=
  ⟨(ticket_cost_positive_amended initStorage
      "tz1fcNTRug7RXfixJWttCcReTVXSLt2UozSU" 3000000
      { initStorage with ticket_cost := 3000000 }).1,
   (ticket_cost_positive_amended initStorage
      "tz1fcNTRug7RXfixJWttCcReTVXSLt2UozSU" 3000000
      { initStorage with ticket_cost := 3000000 }).2 rfl⟩

/-- C9: when tickets are available, `buy_tickets 0 caller paid` succeeds for
any paid amount, leaves the storage (ledger and `tickets_available`
included) exactly unchanged, and refunds the whole paid amount to the
caller (no transfer is issued when the paid amount is zero). -/
theorem buy_tickets_zero (st : Storage) (caller : String) (amount : Nat)
    (h : 0 < st.tickets_available) :
    buy_tickets 0 caller amount st =
      Except.ok (st, if 0 < amount then some (caller, amount) else none) := by
  simp only [buy_tickets]
  rw [if_pos h, if_pos (by omega : amount ≥ 0 * st.ticket_cost),
      if_pos (by omega : st.tickets_available ≥ 0)]
  simp [buyLoop]

theorem buy_tickets_zero_witness :
    buy_tickets 0 "bob" 42 initStorage =
      Except.ok (initStorage, some ("bob", 42)) :=
  buy_tickets_zero initStorage "bob" 42 (by decide)

/-- C10: in any reachable state with `tickets_available = 0`, the ledger
holds exactly the keys `0, ..., max_tickets - 1`, so the `end_game` lookup
at `winner_id = now % max_tickets` always finds an owner and `end_game`
never fails with a missing ledger key. -/
theorem end_game_lookup_never_fails (st : Storage) (now balance : Nat)
    (h : Reachable st) (h0 : st.tickets_available = 0) :
    (st.players.lookup (now % st.max_tickets)).isSome ∧
    st.players.length = st.max_tickets ∧
    end_game now balance st ≠ Except.error Err.missingLedgerKey := by
  obtain ⟨hc, hsum, hmax⟩ := reachable_inv h
  have hc' : Contig st.players := hc
  have hlen : st.players.length = st.max_tickets := by omega
  have hlt : now % st.max_tickets < st.players.length := by
    rw [hlen]
    exact Nat.mod_lt _ hmax
  have hsome := contig_lookup_isSome hc' hlt
  refine ⟨hsome, hlen, ?_⟩
  obtain ⟨w, hw⟩ := Option.isSome_iff_exists.mp hsome
  simp [end_game, h0, hw]

theorem end_game_lookup_never_fails_witness :
    (soldOutStorage.players.lookup (7 % soldOutStorage.max_tickets)).isSome ∧
    soldOutStorage.players.length = soldOutStorage.max_tickets ∧
    end_game 7 12000000 soldOutStorage ≠ Except.error Err.missingLedgerKey :=
  end_game_lookup_never_fails soldOutStorage 7 12000000
    soldOutStorage_reachable rfl
